import Mathlib

/-!
# Verification of the DEIF GC-1F/2 → MQTT bridge decode/state core

Shallow embedding of `deif_to_mqtt.js`.  16-bit register words arriving from
the Modbus transport are modelled as `Int` (JavaScript numbers restricted to
integers); JavaScript's `undefined` is modelled as `Option.none`; JavaScript's
32-bit bitwise operators (`&`, `|`, `<<`), which first coerce their operands
through `ToInt32` (with `ToInt32 undefined = ToInt32 NaN = 0`), are modelled
explicitly below.  Timestamps (`Date.now()`) are integer milliseconds.
Floating-point formatting (`toFixed`/`parseFloat`) is carried symbolically in
the publish payloads; it is never computed with.
-/

namespace Deif

/-! ## JavaScript 32-bit integer semantics -/

/-- `ToUint32`: reduce an integer JS number to its unsigned 32-bit residue. -/
def toUint32 (n : Int) : Nat := (n % 4294967296).toNat

/-- Reinterpret an unsigned 32-bit residue as a signed 32-bit JS result. -/
def asInt32 (m : Nat) : Int :=
  let r := m % 4294967296
  if r < 2147483648 then (r : Int) else (r : Int) - 4294967296

/-- JavaScript `a & b` on integer numbers. -/
def jsAnd (a b : Int) : Int := asInt32 (toUint32 a &&& toUint32 b)

/-- JavaScript `a | b` on integer numbers. -/
def jsOr (a b : Int) : Int := asInt32 (toUint32 a ||| toUint32 b)

/-- JavaScript `a << b` on integer numbers (shift count taken mod 32). -/
def jsShl (a b : Int) : Int := asInt32 ((toUint32 a <<< (toUint32 b % 32)) % 4294967296)

/-- A JS value that may be `undefined` (an out-of-range register lookup).
`ToInt32 undefined = 0`, hence `getD 0` at each bitwise-coercion site. -/
abbrev JVal := Option Int

/-! ## Value decoders (source: `u32`, `s16`, `getReg`) -/

/-- `function u32(hi, lo) { return ((hi & 0xffff) << 16) | (lo & 0xffff); }` -/
def u32 (hi lo : JVal) : Int :=
  jsOr (jsShl (jsAnd (hi.getD 0) 0xffff) 16) (jsAnd (lo.getD 0) 0xffff)

/-- `function s16(x) { const v = x & 0xffff; return v > 0x7fff ? v - 0x10000 : v; }` -/
def s16 (x : JVal) : Int :=
  let v := jsAnd (x.getD 0) 0xffff
  if v > 0x7fff then v - 0x10000 else v

/-- Measurement block geometry: one continuous read from 500 to 576 inclusive. -/
def MEAS_START : Nat := 500
def MEAS_END : Nat := 576
def MEAS_BLOCK_LEN : Nat := MEAS_END - MEAS_START + 1

/-! Register addresses used by the measurement readers (source table `R`). -/
namespace R
def APP_VERSION : Nat := 500
def GEN_U_L1N : Nat := 504
def GEN_U_L2N : Nat := 505
def GEN_U_L3N : Nat := 506
def GEN_F : Nat := 507
def GEN_I_L1 : Nat := 513
def GEN_I_L2 : Nat := 514
def GEN_I_L3 : Nat := 515
def PGEN : Nat := 519
def QGEN : Nat := 523
def SGEN : Nat := 527
def EGEN_HI : Nat := 536
def EGEN_LO : Nat := 537
def COS_PHI : Nat := 538
def MAINS_U_L1N : Nat := 542
def MAINS_U_L2N : Nat := 543
def MAINS_U_L3N : Nat := 544
def MAINS_F : Nat := 545
def RUN_HI : Nat := 554
def RUN_LO : Nat := 555
def ALARM_COUNT : Nat := 558
def ALARM_UNACK : Nat := 559
def ALARM_ACK_ACTIVE : Nat := 560
def GB_OPERATIONS : Nat := 563
def MB_OPERATIONS : Nat := 564
def START_ATTEMPTS : Nat := 566
def USUPPLY : Nat := 567
def RPM : Nat := 576
end R

/-- `getReg(block, addr)`: index into the measurement block by absolute
address; out-of-range lookups return `undefined` (here `none`).
Source: `const idx = addr - MEAS_START; if (idx < 0 || idx >= block.length)
return undefined; return block[idx];` -/
def getReg (block : List Int) (addr : Nat) : Option Int :=
  if addr < MEAS_START then none
  else block.get? (addr - MEAS_START)

/-! ## Alarm / status tables -/

/-- Alarm bitfield block geometry: registers 1000..1019 inclusive. -/
def ALARM_START : Nat := 1000
def ALARM_END : Nat := 1019
def ALARM_BLOCK_LEN : Nat := ALARM_END - ALARM_START + 1

/-- The `code`/`text` payload of one alarm or status table row. -/
structure AlarmDef where
  code : String
  text : String
deriving DecidableEq, Repr

set_option maxHeartbeats 1600000 in
/-- `ALARM_MAP`: allow-list of alarm `(register, bit)` keys.  The JS object
key `"reg:bit"` is modelled as the pair `(reg, bit)`. -/
def ALARM_MAP : List ((Nat × Nat) × AlarmDef) := [
  ((1000, 0),  ⟨"1000", "G -P> 1"⟩),
  ((1000, 3),  ⟨"1030", "G I> 1"⟩),
  ((1000, 4),  ⟨"1040", "G I> 2"⟩),
  ((1000, 9),  ⟨"1130", "G I>> 1"⟩),
  ((1000, 10), ⟨"1140", "G I>> 2"⟩),
  ((1000, 11), ⟨"1150", "G U> 1"⟩),
  ((1000, 12), ⟨"1160", "G U> 2"⟩),
  ((1000, 13), ⟨"1170", "G U< 1"⟩),
  ((1000, 14), ⟨"1180", "G U< 2"⟩),
  ((1001, 0),  ⟨"1210", "G f> 1"⟩),
  ((1001, 1),  ⟨"1220", "G f> 2"⟩),
  ((1001, 3),  ⟨"1240", "G f< 1"⟩),
  ((1001, 4),  ⟨"1250", "G f< 2"⟩),
  ((1001, 6),  ⟨"no code", "BB U> 1"⟩),
  ((1001, 7),  ⟨"no code", "BB U> 2"⟩),
  ((1001, 9),  ⟨"no code", "BB U< 1"⟩),
  ((1001, 10), ⟨"no code", "BB U< 2"⟩),
  ((1001, 13), ⟨"no code", "BB f> 1"⟩),
  ((1001, 14), ⟨"no code", "BB f> 2"⟩),
  ((1002, 0),  ⟨"no code", "BB f< 1"⟩),
  ((1002, 1),  ⟨"no code", "BB f< 2"⟩),
  ((1002, 7),  ⟨"1450", "G P> 1"⟩),
  ((1002, 8),  ⟨"1460", "G P> 2"⟩),
  ((1002, 14), ⟨"no code", "-Q>"⟩),
  ((1002, 15), ⟨"no code", "Q>"⟩),
  ((1003, 7),  ⟨"1620", "Mains unbalanced voltage"⟩),
  ((1005, 3),  ⟨"2150", "Phase seq error"⟩),
  ((1005, 4),  ⟨"2160", "GB open failure"⟩),
  ((1005, 5),  ⟨"2170", "GB close failure"⟩),
  ((1005, 6),  ⟨"no code", "GB pos failure"⟩),
  ((1005, 7),  ⟨"2200", "MB open failure"⟩),
  ((1005, 8),  ⟨"2210", "MB close failure"⟩),
  ((1005, 9),  ⟨"no code", "MB pos failure"⟩),
  ((1010, 0),  ⟨"3400", "Dig. multi-input 1"⟩),
  ((1010, 1),  ⟨"3410", "Dig. multi-input 2"⟩),
  ((1010, 2),  ⟨"3420", "Dig. multi-input 3"⟩),
  ((1010, 3),  ⟨"3404", "Wire failure, dig. multi-input 1"⟩),
  ((1010, 4),  ⟨"3404", "Wire failure, dig. multi-input 2"⟩),
  ((1010, 5),  ⟨"3424", "Wire failure, dig. multi-input 3"⟩),
  ((1010, 12), ⟨"3490", "Dig. input 19-20/Emergency STOP"⟩),
  ((1013, 0),  ⟨"no code", "Multi-input 1.1"⟩),
  ((1013, 1),  ⟨"no code", "Multi-input 1.2"⟩),
  ((1013, 2),  ⟨"no code", "W. failure, multi-input 1"⟩),
  ((1013, 3),  ⟨"no code", "Multi-input 2.1"⟩),
  ((1013, 4),  ⟨"no code", "Multi-input 2.2"⟩),
  ((1013, 5),  ⟨"no code", "W. failure, multi-input 2"⟩),
  ((1013, 6),  ⟨"no code", "Multi-input 3.1"⟩),
  ((1013, 7),  ⟨"no code", "Multi-input 3.2"⟩),
  ((1013, 8),  ⟨"no code", "W. failure, multi-input 3"⟩),
  ((1013, 9),  ⟨"4510", "Overspeed 1"⟩),
  ((1013, 10), ⟨"4520", "Overspeed 2"⟩),
  ((1013, 11), ⟨"4620", "VDO fuel level 1.3"⟩),
  ((1013, 12), ⟨"4610", "Charger gen"⟩),
  ((1013, 13), ⟨"4600", "V-Belt"⟩),
  ((1013, 14), ⟨"4560", "Generator Hz/V failure"⟩),
  ((1013, 15), ⟨"no code", "Start failure"⟩),
  ((1014, 0),  ⟨"4580", "Stop failure"⟩),
  ((1014, 1),  ⟨"4960", "U< aux. supply term. 1"⟩),
  ((1014, 2),  ⟨"4970", "U> aux. supply term. 1"⟩),
  ((1014, 5),  ⟨"4610", "Charger Gen"⟩),
  ((1015, 0),  ⟨"6110", "Service timer 1"⟩),
  ((1015, 1),  ⟨"6120", "Service timer 2"⟩),
  ((1015, 13), ⟨"no code", "Fuel fill check"⟩)
]

/-- `STATUS_MAP`: allow-list of status `(register, bit)` keys. -/
def STATUS_MAP : List ((Nat × Nat) × AlarmDef) := [
  ((1018, 0),  ⟨"no code", "Mains failure"⟩),
  ((1018, 1),  ⟨"no code", "MB pos ON"⟩),
  ((1018, 4),  ⟨"no code", "GB pos ON"⟩),
  ((1018, 6),  ⟨"no code", "Engine running"⟩),
  ((1018, 7),  ⟨"no code", "Running detection, timer expired"⟩),
  ((1018, 8),  ⟨"no code", "DG Hz/V OK, timer expired"⟩),
  ((1019, 0),  ⟨"no code", "OFF"⟩),
  ((1019, 1),  ⟨"no code", "Manual"⟩),
  ((1019, 3),  ⟨"no code", "Auto"⟩),
  ((1019, 4),  ⟨"no code", "Test"⟩),
  ((1019, 5),  ⟨"no code", "Island"⟩),
  ((1019, 6),  ⟨"no code", "AMF"⟩),
  ((1019, 10), ⟨"no code", "Load take over"⟩),
  ((1019, 15), ⟨"no code", "AMF active"⟩)
]

/-- The registers appearing among `ALARM_MAP` keys (source: `ALARM_REG_SET`,
a dedup-sorted `Set`; only membership is ever used, so the raw key-register
list is an equivalent model). -/
def ALARM_REG_SET : List Nat := ALARM_MAP.map (fun p => p.1.1)

/-- The registers appearing among `STATUS_MAP` keys, dedup-sorted
(source: `STATUS_REGISTERS` = `[1018, 1019]`). -/
def STATUS_REGISTERS : List Nat := [1018, 1019]

/-- `BIT_MASKS[bit] = 1 << bit` for `bit = 0..15`. -/
def bitMask (bit : Nat) : Int := ((1 <<< bit : Nat) : Int)

/-! ## Bitfield classifier (source: `decodeAlarms`, `decodeStatus`) -/

/-- One decoded active alarm `{register, bit, code, text}`. -/
structure ActiveAlarm where
  register : Nat
  bit : Nat
  code : String
  text : String
deriving DecidableEq, Repr

/-- The inner bit loop of `decodeAlarms` for one register. -/
def decodeBitsA (regAddr : Nat) (regValue : Int) : List ActiveAlarm :=
  (List.range 16).filterMap (fun bit =>
    if jsAnd regValue (bitMask bit) ≠ 0 then
      match ALARM_MAP.lookup (regAddr, bit) with
      | some d => some ⟨regAddr, bit, d.code, d.text⟩
      | none => none
    else none)

/-- `decodeAlarms(alarmRegs)`: walk the polled block in index order; skip
registers not in the alarm allow-list; emit one `ActiveAlarm` per set bit
with a matching `ALARM_MAP` entry. -/
def decodeAlarms (alarmRegs : List Int) : List ActiveAlarm :=
  (List.range alarmRegs.length).flatMap (fun i =>
    if ALARM_REG_SET.contains (ALARM_START + i) then
      decodeBitsA (ALARM_START + i) (alarmRegs.getD i 0)
    else [])

/-- The inner bit loop of `decodeStatus` for one register: an entry per
`STATUS_MAP` key of that register, boolean = bit set (JS `!!(v & mask)`). -/
def decodeBitsS (regAddr : Nat) (regValue : Int) : List ((Nat × Nat) × Bool) :=
  (List.range 16).filterMap (fun bit =>
    match STATUS_MAP.lookup (regAddr, bit) with
    | some _ => some ((regAddr, bit), decide (jsAnd regValue (bitMask bit) ≠ 0))
    | none => none)

/-- `decodeStatus(alarmRegs)`: for each status register present in the polled
block, one boolean entry per `STATUS_MAP` key.  The JS object key
`"reg_bit"` is modelled as the pair `(reg, bit)`. -/
def decodeStatus (alarmRegs : List Int) : List ((Nat × Nat) × Bool) :=
  STATUS_REGISTERS.flatMap (fun regAddr =>
    if regAddr < ALARM_START then []
    else if regAddr - ALARM_START ≥ alarmRegs.length then []
    else decodeBitsS regAddr (alarmRegs.getD (regAddr - ALARM_START) 0))

/-- The ascending `(register, bit)` order of decoded alarms. -/
def alarmLt (a b : ActiveAlarm) : Prop :=
  a.register < b.register ∨ (a.register = b.register ∧ a.bit < b.bit)

/-- A polled alarm block in which exactly one bit of one register is set. -/
def singleBitBlock (reg bit : Nat) : List Int :=
  (List.range ALARM_BLOCK_LEN).map
    (fun i => if ALARM_START + i = reg then bitMask bit else 0)

/-- Read a key of the status snapshot; a missing key is JS `undefined`,
which is falsy. -/
def statusGet (status : List ((Nat × Nat) × Bool)) (reg bit : Nat) : Bool :=
  (status.lookup (reg, bit)).getD false

/-- `formatActiveAlarms`: multi-line `"<code> <text>"`, or a sentinel. -/
def formatActiveAlarms (activeAlarms : List ActiveAlarm) : String :=
  if activeAlarms.isEmpty then "No active alarms"
  else String.intercalate "\n" (activeAlarms.map (fun a => a.code ++ " " ++ a.text))

/-- `getOperatingModeText(status)`: primary mode by fixed priority
OFF (1019:0), Manual (1019:1), Test (1019:4), Auto (1019:3), else Unknown;
modifiers AMF (1019:6), Load Takeover (1019:10), AMF Active (1019:15). -/
def getOperatingModeText (status : List ((Nat × Nat) × Bool)) : String :=
  let primaryMode :=
    if statusGet status 1019 0 then "OFF"
    else if statusGet status 1019 1 then "Manual"
    else if statusGet status 1019 4 then "Test"
    else if statusGet status 1019 3 then "Auto"
    else "Unknown"
  let modifiers :=
    (if statusGet status 1019 6 then ["AMF"] else []) ++
    (if statusGet status 1019 10 then ["Load Takeover"] else []) ++
    (if statusGet status 1019 15 then ["AMF Active"] else [])
  if modifiers.length > 0 then
    primaryMode ++ " (" ++ String.intercalate ", " modifiers ++ ")"
  else
    primaryMode

/-! ## Run-cycle tracker (source: the engine run/stop block of `readAndPublish`) -/

/-- The process-lifetime engine-run state
(`prevEngineRunning`, `lastRunStarted`, `lastRunStopped`,
`lastRunStartedMs`, `lastRunDurationSeconds`).  The ISO timestamp strings and
the millisecond clock reads are both modelled by the same integer `now`. -/
structure RunState where
  prev : Option Bool
  lastStarted : Option Int
  lastStopped : Option Int
  lastStartedMs : Option Int
  lastDuration : Option Int
deriving DecidableEq, Repr

/-- A publish emitted from inside the run/stop tracking block. -/
inductive RunEvent where
  | started (t : Int)
  | durationS (s : Int)
  | stopped (t : Int)
deriving DecidableEq, Repr

/-- `Math.round(x / 1000)` for an integer millisecond delta `x`
(JS rounds half toward positive infinity: `floor(x/1000 + 1/2)`). -/
def roundDiv1000 (x : Int) : Int := (x + 500).fdiv 1000

/-- One sample of the engine-running boolean (source lines: the
`prevEngineRunning` block of `readAndPublish`).  Returns the new state and
the publishes the block emits, in emission order. -/
def runStep (s : RunState) (engineRunning : Bool) (now : Int) : RunState × List RunEvent :=
  match s.prev with
  | none => ({ s with prev := some engineRunning }, [])
  | some p =>
    if engineRunning = p then (s, [])
    else if engineRunning then
      ({ s with prev := some true, lastStarted := some now, lastStartedMs := some now },
       [.started now])
    else
      match s.lastStartedMs with
      | some t0 =>
        let durationSec := max 0 (roundDiv1000 (now - t0))
        ({ s with prev := some false, lastStopped := some now,
                  lastDuration := some durationSec },
         [.durationS durationSec, .stopped now])
      | none =>
        ({ s with prev := some false, lastStopped := some now }, [.stopped now])

/-! ## Command dispatcher (source: `createCommandHandler` and the
`mq.on` message callback) -/

/-- One enabled command definition (key, command topic, coil offset). -/
structure Command where
  key : String
  topic : String
  offset : Nat
deriving DecidableEq, Repr

/-- The shared cooldown gate: `lastRun`, initially 0. -/
structure CmdState where
  lastRun : Int
deriving DecidableEq, Repr

/-- Outcome of one inbound message: dropped before the handler ran
(unknown topic or retained), skipped by the cooldown, or one coil write. -/
inductive CmdAction where
  | ignored
  | skipped
  | write (offset : Nat)
deriving DecidableEq, Repr

/-- One inbound MQTT message (source: the `mq.on` callback, then
`handleCommand`, then `withinCooldown`): drop if the topic is not an enabled
command topic; drop if the packet is retained; otherwise look the command up,
reject without side effect if the cooldown window is still open, else set
`lastRun := now` and write the command's coil. -/
def handleMessage (cooldownMs : Int) (cmds : List Command) (st : CmdState)
    (topic : String) (retained : Bool) (now : Int) : CmdState × CmdAction :=
  -- source: `if (!cmdTopicSet.has(topic)) return;` — early exit when absent
  if (cmds.map (fun c => c.topic)).contains topic then
    if retained then (st, .ignored)
    else
      match cmds.find? (fun c => c.topic == topic) with
      | none => (st, .ignored)
      | some c =>
        if now - st.lastRun < cooldownMs then (st, .skipped)
        else ({ lastRun := now }, .write c.offset)
  else (st, .ignored)

/-! ## Alarm transition logger (source: the diff block of `readAndPublish`) -/

/-- Result of one alarm diff: the new previous-key set, the alarms that
became active, and the keys that cleared. -/
def alarmDiff (prevKeys : List (Nat × Nat)) (active : List ActiveAlarm) :
    List (Nat × Nat) × List ActiveAlarm × List (Nat × Nat) :=
  let currentKeys := active.map (fun a => (a.register, a.bit))
  let activated := active.filter (fun a => ! prevKeys.contains (a.register, a.bit))
  let cleared := prevKeys.filter (fun k => ! currentKeys.contains k)
  (currentKeys, activated, cleared)

/-! ## State aggregator (source: `readAndPublish` and `run`) -/

/-- A published payload.  Values whose JS computation is floating point
(`toFixed`/`parseFloat` scaling, plain float division) are carried
symbolically: `fixed v d k` stands for `parseFloat((v / d).toFixed(k))` and
`fdiv n d` for the float `n / d`; neither is ever evaluated here. -/
inductive Payload where
  | onum (v : Option Int)
  | int (n : Int)
  | str (s : String)
  | bool (b : Bool)
  | alarmsList (l : List ActiveAlarm)
  | fixed (v : Option Int) (divisor : Int) (decimals : Nat)
  | fdiv (n : Int) (d : Int)
  | ots (t : Option Int)
  | onull (v : Option Int)
  | tsIso (t : Int)
deriving DecidableEq, Repr

/-- Config defaults fixed at their source `.env` fallbacks (`SLAVE_ID = 1`). -/
def FREQ_DIVISOR : Int := 10
def FREQ_DECIMALS : Nat := 1
def PUBLISH_ALARM_BITFIELDS : Bool := false
def DEVICE_MODEL : String := "DEIF GC-1F/2"
def DEVICE_MANUFACTURER : String := "DEIF"
def DEVICE_NAME : String := "DEIF GC-1F/2 (1)"
def HASS_DEVICE_ID : String := "deif-gc1f2-1"

/-- `readGen(block)` as (field, payload) pairs in object-literal order. -/
def readGen (block : List Int) : List (String × Payload) := [
  ("voltage_l1n_v", .onum (getReg block R.GEN_U_L1N)),
  ("voltage_l2n_v", .onum (getReg block R.GEN_U_L2N)),
  ("voltage_l3n_v", .onum (getReg block R.GEN_U_L3N)),
  ("current_l1_a", .onum (getReg block R.GEN_I_L1)),
  ("current_l2_a", .onum (getReg block R.GEN_I_L2)),
  ("current_l3_a", .onum (getReg block R.GEN_I_L3)),
  ("frequency_hz", .fixed (getReg block R.GEN_F) FREQ_DIVISOR FREQ_DECIMALS),
  ("pgen_kw", .int (s16 (getReg block R.PGEN))),
  ("qgen_kvar", .int (s16 (getReg block R.QGEN))),
  ("sgen_kva", .int (s16 (getReg block R.SGEN))),
  ("cos_phi", .fdiv (s16 (getReg block R.COS_PHI)) 100)
]

/-- `readMains(block)` as (field, payload) pairs in object-literal order. -/
def readMains (block : List Int) : List (String × Payload) := [
  ("voltage_l1n_v", .onum (getReg block R.MAINS_U_L1N)),
  ("voltage_l2n_v", .onum (getReg block R.MAINS_U_L2N)),
  ("voltage_l3n_v", .onum (getReg block R.MAINS_U_L3N)),
  ("frequency_hz", .fixed (getReg block R.MAINS_F) FREQ_DIVISOR FREQ_DECIMALS)
]

/-- `readRunHours(block)`. -/
def readRunHours (block : List Int) : Int :=
  u32 (getReg block R.RUN_HI) (getReg block R.RUN_LO)

/-- `readEnergy(block).energyKwh`; the signed twin is its negation. -/
def readEnergyKwh (block : List Int) : Int :=
  u32 (getReg block R.EGEN_HI) (getReg block R.EGEN_LO)

/-- `readCounters(block)` as (field, payload) pairs in object-literal order. -/
def readCounters (block : List Int) : List (String × Payload) := [
  ("gen_breaker_ops", .onum (getReg block R.GB_OPERATIONS)),
  ("mains_breaker_ops", .onum (getReg block R.MB_OPERATIONS)),
  ("start_attempts", .onum (getReg block R.START_ATTEMPTS))
]

/-- `toHex(x)`: `'0x' + (x & 0xffff).toString(16).toUpperCase().padStart(4, '0')`. -/
def toHex (x : Int) : String :=
  let v := (jsAnd x 0xffff).toNat
  let s := (String.mk (Nat.toDigits 16 v)).toUpper
  "0x" ++ "".pushn '0' (4 - s.length) ++ s

/-- The optional `alarms.bitfield` object (field per register, hex string). -/
def bitfieldFields (alarmRegs : List Int) : List (String × Payload) :=
  (List.range ALARM_BLOCK_LEN).map
    (fun i => (toString (ALARM_START + i), Payload.str (toHex (alarmRegs.getD i 0))))

/-- The JS object key `"reg_bit"` of one status entry. -/
def statusFieldName (k : Nat × Nat) : String :=
  toString k.1 ++ "_" ++ toString k.2

/-- The per-poll mutable state: `prevActiveAlarmKeys` plus the run tracker. -/
structure PollState where
  prevAlarmKeys : List (Nat × Nat)
  runState : RunState
deriving DecidableEq, Repr

/-- Map a run-tracking publish to its topic/payload. -/
def pubOfRunEvent : RunEvent → String × Payload
  | .started t => ("status/last_run_started", .tsIso t)
  | .durationS s => ("status/last_run_duration_s", .int s)
  | .stopped t => ("status/last_run_stopped", .tsIso t)

/-- `publishFlat` pops a stack, so a flat object's leaves are published in
reverse field order under `p/field`. -/
def flatPubs (p : String) (fields : List (String × Payload)) : List (String × Payload) :=
  fields.reverse.map (fun kv => (p ++ "/" ++ kv.1, kv.2))

/-- One poll cycle (`readAndPublish` driven by `run`): the two block reads
come first; a read error abandons the cycle with no publish and no state
change (the exception propagates to `run`'s catch).  On success the decoded
snapshot is published and the alarm-diff and run-cycle state advance.
Returns the new state and the publishes in emission order. -/
def poll (st : PollState) (measRead alarmRead : Except String (List Int))
    (now : Int) : PollState × List (String × Payload) :=
  match measRead with
  | .error _ => (st, [])
  | .ok b =>
    match alarmRead with
    | .error _ => (st, [])
    | .ok alarmRegs =>
      let gen := readGen b
      let mains := readMains b
      let runHours := readRunHours b
      let energyKwh := readEnergyKwh b
      let active := decodeAlarms alarmRegs
      let alarmFields : List (String × Payload) :=
        [("count", .onum (getReg b R.ALARM_COUNT)),
         ("unacknowledged", .onum (getReg b R.ALARM_UNACK)),
         ("ack_active", .onum (getReg b R.ALARM_ACK_ACTIVE)),
         ("active", .alarmsList active)] ++
        (if PUBLISH_ALARM_BITFIELDS then bitfieldFields alarmRegs else []) ++
        [("active_text", .str (formatActiveAlarms active))]
      let diff := alarmDiff st.prevAlarmKeys active
      let status := decodeStatus alarmRegs
      let operatingMode := getOperatingModeText status
      let statusFields :=
        status.map (fun kv => (statusFieldName kv.1, Payload.bool kv.2)) ++
        [("operating_mode", Payload.str operatingMode)]
      let engineRunning := statusGet status 1018 6
      let stepped := runStep st.runState engineRunning now
      let counters := readCounters b
      (⟨diff.1, stepped.1⟩,
        stepped.2.map pubOfRunEvent ++
        flatPubs "device"
          [("id", .str HASS_DEVICE_ID), ("name", .str DEVICE_NAME),
           ("manufacturer", .str DEVICE_MANUFACTURER), ("model", .str DEVICE_MODEL)] ++
        flatPubs "gen" gen ++
        flatPubs "mains" mains ++
        [("run_hours", .int runHours),
         ("energy_kwh", .int energyKwh),
         ("energy_signed_kwh", .int (-energyKwh))] ++
        flatPubs "alarms" alarmFields ++
        flatPubs "counters" counters ++
        flatPubs "status" statusFields ++
        [("rpm", .onum (getReg b R.RPM)),
         ("usupply_v", .fixed (getReg b R.USUPPLY) 10 1),
         ("last_run_started", .ots stepped.1.lastStarted),
         ("last_run_stopped", .ots stepped.1.lastStopped),
         ("last_run_duration_s", .onull stepped.1.lastDuration),
         ("ts", .tsIso now)])

/-! ## Spec-side mode synthesizer (for the refinement claim about
`getOperatingModeText`) -/

/-- Modelled from the spec's words (§4.3 Mode Synthesizer): evaluate the
primary flags in the fixed priority order OFF, Manual, Test, Auto, first true
wins, else Unknown; modifiers AMF, Load Takeover, AMF Active are independent
and appear in that fixed list order; output `"<primary>"` or
`"<primary> (<mod1>, <mod2>, ...)"`. -/
def modeTextSpec (off manual test auto amf loadTakeover amfActive : Bool) : String :=
  let primary :=
    if off then "OFF"
    else if manual then "Manual"
    else if test then "Test"
    else if auto then "Auto"
    else "Unknown"
  let mods :=
    (if amf then ["AMF"] else []) ++
    (if loadTakeover then ["Load Takeover"] else []) ++
    (if amfActive then ["AMF Active"] else [])
  if mods = [] then primary
  else primary ++ " (" ++ String.intercalate ", " mods ++ ")"

/-- The status snapshot holding exactly the seven operating-mode flags. -/
def statusOfModeFlags (off manual test auto amf loadTakeover amfActive : Bool) :
    List ((Nat × Nat) × Bool) :=
  [((1019, 0), off), ((1019, 1), manual), ((1019, 3), auto), ((1019, 4), test),
   ((1019, 6), amf), ((1019, 10), loadTakeover), ((1019, 15), amfActive)]

/-! # Helper lemmas -/

lemma toUint32_eq_toNat {n : Int} (h0 : 0 ≤ n) (h : n < 4294967296) :
    toUint32 n = n.toNat := by
  unfold toUint32; omega

lemma asInt32_eq_of_lt {m : Nat} (h : m < 2147483648) : asInt32 m = (m : Int) := by
  simp only [asInt32]; split <;> omega

lemma asInt32_eq_of_ge {m : Nat} (h1 : m < 4294967296) (h2 : 2147483648 ≤ m) :
    asInt32 m = (m : Int) - 4294967296 := by
  simp only [asInt32]; split <;> omega

lemma toUint32_asInt32 (m : Nat) : toUint32 (asInt32 m) = m % 4294967296 := by
  simp only [toUint32, asInt32]; split <;> omega

lemma nat_and_ffff {n : Nat} (h : n < 65536) : n &&& 65535 = n := by
  have h2 : (65535 : Nat) = 2 ^ 16 - 1 := by norm_num
  rw [h2, Nat.and_pow_two_sub_one_of_lt_two_pow h]

/-- What one iteration of the `decodeAlarms` bit loop tells us when it
produces an entry. -/
lemma decodeBitsA_body {r : Nat} {v : Int} {bit : Nat} {x : ActiveAlarm}
    (h : (if jsAnd v (bitMask bit) ≠ 0 then
            match ALARM_MAP.lookup (r, bit) with
            | some d => some (⟨r, bit, d.code, d.text⟩ : ActiveAlarm)
            | none => none
          else none) = some x) :
    x.register = r ∧ x.bit = bit ∧ (r, bit) ∈ ALARM_MAP.map Prod.fst := by
  split at h
  · cases hl : ALARM_MAP.lookup (r, bit) with
    | none => rw [hl] at h; simp at h
    | some d =>
      rw [hl] at h
      cases h
      refine ⟨rfl, rfl, ?_⟩
      have hs : (ALARM_MAP.lookup (r, bit)).isSome := by rw [hl]; rfl
      rw [List.lookup_isSome_iff] at hs
      obtain ⟨p, hp, hpk⟩ := hs
      have he : (r, bit) = p.1 := by simpa using hpk
      exact he ▸ List.mem_map_of_mem Prod.fst hp
  · simp at h

lemma mem_decodeBitsA {r : Nat} {v : Int} {a : ActiveAlarm}
    (h : a ∈ decodeBitsA r v) :
    a.register = r ∧ a.bit < 16 ∧ (a.register, a.bit) ∈ ALARM_MAP.map Prod.fst := by
  unfold decodeBitsA at h
  rw [List.mem_filterMap] at h
  obtain ⟨bit, hbit, heq⟩ := h
  rw [List.mem_range] at hbit
  obtain ⟨h1, h2, h3⟩ := decodeBitsA_body heq
  exact ⟨h1, h2 ▸ hbit, h1 ▸ h2 ▸ h3⟩

lemma mem_decodeBitsS {r : Nat} {v : Int} {p : (Nat × Nat) × Bool}
    (h : p ∈ decodeBitsS r v) :
    p.1.1 = r ∧ p.1 ∈ STATUS_MAP.map Prod.fst := by
  unfold decodeBitsS at h
  rw [List.mem_filterMap] at h
  obtain ⟨bit, hbit, heq⟩ := h
  cases hl : STATUS_MAP.lookup (r, bit) with
  | none => rw [hl] at heq; simp at heq
  | some d =>
    rw [hl] at heq
    cases heq
    refine ⟨rfl, ?_⟩
    have hs : (STATUS_MAP.lookup (r, bit)).isSome := by rw [hl]; rfl
    rw [List.lookup_isSome_iff] at hs
    obtain ⟨q, hq, hqk⟩ := hs
    have he : (r, bit) = q.1 := by simpa using hqk
    exact he ▸ List.mem_map_of_mem Prod.fst hq

lemma mem_decodeAlarms {regs : List Int} {a : ActiveAlarm}
    (h : a ∈ decodeAlarms regs) :
    (∃ i, i < regs.length ∧ a.register = ALARM_START + i) ∧
    (a.register, a.bit) ∈ ALARM_MAP.map Prod.fst := by
  unfold decodeAlarms at h
  rw [List.mem_flatMap] at h
  obtain ⟨i, hi, ha⟩ := h
  rw [List.mem_range] at hi
  split at ha
  · obtain ⟨hreg, _, hmem⟩ := mem_decodeBitsA ha
    exact ⟨⟨i, hi, hreg⟩, hmem⟩
  · simp at ha

lemma mem_decodeStatus {regs : List Int} {p : (Nat × Nat) × Bool}
    (h : p ∈ decodeStatus regs) :
    p.1 ∈ STATUS_MAP.map Prod.fst ∧ p.1.1 ∈ STATUS_REGISTERS := by
  unfold decodeStatus at h
  rw [List.mem_flatMap] at h
  obtain ⟨r, hr, hp⟩ := h
  split at hp
  · simp at hp
  · split at hp
    · simp at hp
    · obtain ⟨h1, h2⟩ := mem_decodeBitsS hp
      exact ⟨h2, h1 ▸ hr⟩

lemma decodeBitsA_pairwise (r : Nat) (v : Int) :
    (decodeBitsA r v).Pairwise (fun a b => a.bit < b.bit) := by
  unfold decodeBitsA
  rw [List.pairwise_filterMap]
  refine (List.pairwise_lt_range 16).imp ?_
  intro bit bit' hlt x hx y hy
  rw [Option.mem_def] at hx hy
  obtain ⟨_, hxb, _⟩ := decodeBitsA_body hx
  obtain ⟨_, hyb, _⟩ := decodeBitsA_body hy
  rw [hxb, hyb]
  exact hlt

lemma decodeAlarms_chunk_register {regs : List Int} {n : Nat} {x : ActiveAlarm}
    (h : x ∈ (List.range n).flatMap (fun i =>
      if ALARM_REG_SET.contains (ALARM_START + i) then
        decodeBitsA (ALARM_START + i) (regs.getD i 0) else [])) :
    x.register < ALARM_START + n := by
  rw [List.mem_flatMap] at h
  obtain ⟨i, hi, hx⟩ := h
  rw [List.mem_range] at hi
  split at hx
  · have := (mem_decodeBitsA hx).1
    omega
  · simp at hx

lemma decodeAlarms_sorted (regs : List Int) :
    (decodeAlarms regs).Pairwise alarmLt := by
  unfold decodeAlarms
  generalize regs.length = n
  induction n with
  | zero => simp
  | succ n ih =>
    rw [List.range_succ, List.flatMap_append]
    rw [List.pairwise_append]
    refine ⟨ih, ?_, ?_⟩
    · simp only [List.flatMap_cons, List.flatMap_nil, List.append_nil]
      split
      · refine (decodeBitsA_pairwise _ _).imp_of_mem ?_
        intro a b ha hb hlt
        have hra := (mem_decodeBitsA ha).1
        have hrb := (mem_decodeBitsA hb).1
        exact Or.inr ⟨hra.trans hrb.symm, hlt⟩
      · simp
    · intro x hx y hy
      have hxlt := decodeAlarms_chunk_register hx
      simp only [List.flatMap_cons, List.flatMap_nil, List.append_nil] at hy
      split at hy
      · have hry := (mem_decodeBitsA hy).1
        refine Or.inl ?_
        omega
      · simp at hy

/-! # Claims -/

/-- **C8**: a poll cycle whose measurement-block read or alarm-block read
fails is abandoned: nothing is published that cycle and the run-cycle and
alarm-transition state are returned exactly as they were. -/
theorem C8_read_failure_abandons_cycle (st : PollState) (e : String)
    (r : Except String (List Int)) (b : List Int) (now : Int) :
    poll st (.error e) r now = (st, []) ∧
    poll st (.ok b) (.error e) now = (st, []) :=
  ⟨rfl, rfl⟩

/-- **C5**: the run-cycle tracker's single-sample transition function: the
first sample ever only records the value (no event, no timestamp); an
unchanged sample mutates nothing; false→true records the start timestamp;
true→false records the stop timestamp, and records
`lastDuration = max 0 (round ((now - t0) / 1000))` exactly when a start
timestamp `t0` exists. -/
theorem C5_run_cycle_tracker (s : RunState) (v : Bool) (now : Int) :
    (s.prev = none → runStep s v now = ({ s with prev := some v }, [])) ∧
    (s.prev = some v → runStep s v now = (s, [])) ∧
    (s.prev = some false → v = true →
      runStep s v now =
        ({ s with prev := some true, lastStarted := some now, lastStartedMs := some now },
         [.started now])) ∧
    (s.prev = some true → v = false → s.lastStartedMs = none →
      runStep s v now =
        ({ s with prev := some false, lastStopped := some now }, [.stopped now])) ∧
    (∀ t0, s.prev = some true → v = false → s.lastStartedMs = some t0 →
      runStep s v now =
        ({ s with prev := some false, lastStopped := some now,
                  lastDuration := some (max 0 (roundDiv1000 (now - t0))) },
         [.durationS (max 0 (roundDiv1000 (now - t0))), .stopped now])) := by
  refine ⟨fun h => ?_, fun h => ?_, fun h hv => ?_, fun h hv hs => ?_,
    fun t0 h hv hs => ?_⟩
  · simp [runStep, h]
  · simp [runStep, h]
  · subst hv; simp [runStep, h]
  · subst hv; simp [runStep, h, hs]
  · subst hv; simp [runStep, h, hs]

/-- Witness for C5: a stop observed 125000 ms after a start recorded at 0
yields `lastDuration = 125` and the stop is recorded, by the true→false
conjunct of `C5_run_cycle_tracker`. -/
theorem C5_witness :
    runStep ⟨some true, some 0, none, some 0, none⟩ false 125000 =
      (⟨some false, some 0, some 125000, some 0, some 125⟩,
       [.durationS 125, .stopped 125000]) := by
  have h := (C5_run_cycle_tracker ⟨some true, some 0, none, some 0, none⟩
    false 125000).2.2.2.2 0 rfl rfl rfl
  rw [h]; decide

/-- **C4**: with a 5000 ms cooldown, a dispatchable command at time `t`
(enabled topic, cooldown elapsed) writes its coil and arms the gate at `t`;
the same command 100 ms later is rejected by the cooldown without a write;
and a retained message never dispatches, whatever the gate state. -/
theorem C4_cooldown_and_retained (cmds : List Command) (st : CmdState)
    (c c' : Command) (topic topic' : String) (t : Int)
    (hfind : cmds.find? (fun d => d.topic == topic) = some c)
    (hfind' : cmds.find? (fun d => d.topic == topic') = some c')
    (hcool : 5000 ≤ t - st.lastRun) :
    handleMessage 5000 cmds st topic false t = ({ lastRun := t }, .write c.offset) ∧
    handleMessage 5000 cmds { lastRun := t } topic' false (t + 100) =
      ({ lastRun := t }, .skipped) ∧
    (∀ (st' : CmdState) (tp : String) (now : Int),
      handleMessage 5000 cmds st' tp true now = (st', .ignored)) := by
  have hmem : c ∈ cmds := List.mem_of_find?_eq_some hfind
  have heq : c.topic = topic := by
    have := List.find?_some hfind
    simpa using this
  have hex : ∃ x ∈ cmds, x.topic = topic := ⟨c, hmem, heq⟩
  have hmem' : c' ∈ cmds := List.mem_of_find?_eq_some hfind'
  have heq' : c'.topic = topic' := by
    have := List.find?_some hfind'
    simpa using this
  have hex' : ∃ x ∈ cmds, x.topic = topic' := ⟨c', hmem', heq'⟩
  refine ⟨?_, ?_, ?_⟩
  · simp [handleMessage, hex, hfind, show ¬ (t - st.lastRun < 5000) by omega]
  · simp [handleMessage, hex', hfind', show t + 100 - t < 5000 by omega]
  · intro st' tp now
    by_cases h : ∃ x ∈ cmds, x.topic = tp <;> simp [handleMessage, h]

/-- Witness for C4: a concrete enabled command accepted at t = 10000 writes
coil 1; its repeat at t = 10100 is skipped. -/
theorem C4_witness :
    handleMessage 5000 [⟨"start", "deif/gc1f2/cmd/start", 1⟩] ⟨0⟩
        "deif/gc1f2/cmd/start" false 10000 = (⟨10000⟩, .write 1) ∧
    handleMessage 5000 [⟨"start", "deif/gc1f2/cmd/start", 1⟩] ⟨10000⟩
        "deif/gc1f2/cmd/start" false (10000 + 100) = (⟨10000⟩, .skipped) := by
  have h := C4_cooldown_and_retained [⟨"start", "deif/gc1f2/cmd/start", 1⟩] ⟨0⟩
    ⟨"start", "deif/gc1f2/cmd/start", 1⟩ ⟨"start", "deif/gc1f2/cmd/start", 1⟩
    "deif/gc1f2/cmd/start" "deif/gc1f2/cmd/start" 10000
    (by decide) (by decide) (by decide)
  exact ⟨h.1, h.2.1⟩

/-- **C10**: a rejected message (unknown topic, retained, or within the
cooldown window) leaves the gate state unchanged; the gate timestamp is set
to the message time exactly on an accepted dispatch (a coil write). -/
theorem C10_rejected_commands_leave_gate (cooldownMs : Int) (cmds : List Command)
    (st : CmdState) (topic : String) (retained : Bool) (now : Int) :
    ((handleMessage cooldownMs cmds st topic retained now).2 = .ignored ∨
     (handleMessage cooldownMs cmds st topic retained now).2 = .skipped →
      (handleMessage cooldownMs cmds st topic retained now).1 = st) ∧
    (∀ off, (handleMessage cooldownMs cmds st topic retained now).2 = .write off →
      (handleMessage cooldownMs cmds st topic retained now).1 = ⟨now⟩) := by
  by_cases h1 : ∃ x ∈ cmds, x.topic = topic
  · cases h2 : retained with
    | true => simp [handleMessage, h1, h2]
    | false =>
      cases hf : cmds.find? (fun d => d.topic == topic) with
      | none => simp [handleMessage, h1, h2, hf]
      | some c =>
        by_cases hc : now - st.lastRun < cooldownMs <;>
          simp [handleMessage, h1, h2, hf, hc]
  · simp [handleMessage, h1]

/-- Witness for C10: a message arriving 100 ms after the gate was armed at 0
is skipped and leaves the gate at 0. -/
theorem C10_witness :
    (handleMessage 5000 [⟨"start", "t", 3⟩] ⟨0⟩ "t" false 100).1 = ⟨0⟩ :=
  (C10_rejected_commands_leave_gate 5000 [⟨"start", "t", 3⟩] ⟨0⟩ "t" false 100).1
    (Or.inr (by decide))

/-- **C9**: the alarm transition logger computes `activated` as
current − previous and `cleared` as previous − current on the
`(register, bit)` key, and the successful poll replaces the previous key set
wholesale with the current one. -/
theorem C9_alarm_transition_diff (prevKeys : List (Nat × Nat))
    (active : List ActiveAlarm) :
    ((alarmDiff prevKeys active).1 = active.map (fun a => (a.register, a.bit))) ∧
    (∀ a, a ∈ (alarmDiff prevKeys active).2.1 ↔
      a ∈ active ∧ (a.register, a.bit) ∉ prevKeys) ∧
    (∀ k, k ∈ (alarmDiff prevKeys active).2.2 ↔
      k ∈ prevKeys ∧ k ∉ active.map (fun a => (a.register, a.bit))) ∧
    (∀ (st : PollState) (b alarmRegs : List Int) (now : Int),
      (poll st (.ok b) (.ok alarmRegs) now).1.prevAlarmKeys =
        (decodeAlarms alarmRegs).map (fun a => (a.register, a.bit))) := by
  refine ⟨rfl, ?_, ?_, fun st b alarmRegs now => rfl⟩
  · intro a; simp [alarmDiff, List.mem_filter]
  · intro k; simp [alarmDiff, List.mem_filter]

/-- Witness for C9: previous `{(1000,0)}`, current `{(1000,0),(1001,3)}`
yields activated `{(1001,3)}` and cleared `{}`. -/
theorem C9_witness :
    (⟨1001, 3, "1240", "G f< 1"⟩ : ActiveAlarm) ∈
      (alarmDiff [(1000, 0)]
        [⟨1000, 0, "1000", "G -P> 1"⟩, ⟨1001, 3, "1240", "G f< 1"⟩]).2.1 ∧
    (alarmDiff [(1000, 0)]
        [⟨1000, 0, "1000", "G -P> 1"⟩, ⟨1001, 3, "1240", "G f< 1"⟩]).2.1 =
      [⟨1001, 3, "1240", "G f< 1"⟩] ∧
    (alarmDiff [(1000, 0)]
        [⟨1000, 0, "1000", "G -P> 1"⟩, ⟨1001, 3, "1240", "G f< 1"⟩]).2.2 = [] := by
  refine ⟨?_, by decide, by decide⟩
  exact ((C9_alarm_transition_diff [(1000, 0)] _).2.1 _).mpr ⟨by decide, by decide⟩

/-- **C2 counterexample**: the claim says an `undefined` register value
propagates as `undefined` through every decoder rather than being coerced to
zero; in fact `s16(undefined)` and `u32(undefined, undefined)` are `0`
(JavaScript `ToInt32(undefined) = 0` inside `&`), i.e. the missing input is
silently coerced to zero. -/
theorem C2_counterexample : s16 none = 0 ∧ u32 none none = 0 := by decide

/-- **C2 amended**: `getReg` yields `undefined` (never throws, never wraps)
for every out-of-range address, but a decoder applied to that `undefined`
coerces it to `0` via `ToInt32` instead of propagating `undefined`. -/
theorem C2_amended (block : List Int) (addr : Nat)
    (h : addr < MEAS_START ∨ MEAS_START + block.length ≤ addr) :
    getReg block addr = none ∧ s16 (getReg block addr) = 0 ∧
    u32 (getReg block addr) (getReg block addr) = 0 := by
  have hg : getReg block addr = none := by
    unfold getReg
    simp only [MEAS_START] at h ⊢
    split
    · rfl
    · exact List.get?_eq_none.mpr (by omega)
  rw [hg]
  exact ⟨rfl, by decide, by decide⟩

/-- Witness for C2: address 0 is below the block start, so the lookup is
`undefined` and the decoders turn it into `0`. -/
theorem C2_witness :
    getReg [] 0 = none ∧ s16 (getReg [] 0) = 0 ∧
    u32 (getReg [] 0) (getReg [] 0) = 0 :=
  C2_amended [] 0 (Or.inl (by decide))

/-- **C3 counterexample**: the claim says `u32` is unsigned for all inputs
including `hi ≥ 0x8000`; in fact JavaScript's `<<`/`|` work on signed 32-bit
integers, so `u32(0x8000, 0)` is `-2147483648`, not `0x8000 * 65536`. -/
theorem C3_counterexample :
    u32 (some 32768) (some 0) = -2147483648 ∧
    u32 (some 32768) (some 0) ≠ 32768 * 65536 := by decide

/-- **C3 amended**: for 16-bit words `hi`, `lo`, `u32` returns the
big-endian combination `hi * 65536 + lo` reinterpreted as a **signed** 32-bit
integer: the value itself when `hi < 0x8000`, and `hi * 65536 + lo - 2^32`
(negative) when `hi ≥ 0x8000`. -/
theorem C3_amended (hi lo : Int) (hhi0 : 0 ≤ hi) (hhi : hi ≤ 65535)
    (hlo0 : 0 ≤ lo) (hlo : lo ≤ 65535) :
    u32 (some hi) (some lo) =
      if hi < 32768 then hi * 65536 + lo else hi * 65536 + lo - 4294967296 := by
  have ha : toUint32 hi = hi.toNat := toUint32_eq_toNat hhi0 (by omega)
  have hb : toUint32 lo = lo.toNat := toUint32_eq_toNat hlo0 (by omega)
  have haf : jsAnd hi 65535 = hi := by
    unfold jsAnd
    rw [ha, show toUint32 65535 = 65535 by decide, nat_and_ffff (by omega),
      asInt32_eq_of_lt (by omega), Int.toNat_of_nonneg hhi0]
  have hbf : jsAnd lo 65535 = lo := by
    unfold jsAnd
    rw [hb, show toUint32 65535 = 65535 by decide, nat_and_ffff (by omega),
      asInt32_eq_of_lt (by omega), Int.toNat_of_nonneg hlo0]
  have hshl : jsShl hi 16 = asInt32 (hi.toNat * 65536) := by
    unfold jsShl
    rw [ha, show toUint32 16 % 32 = 16 by decide, Nat.shiftLeft_eq,
      show (2 : Nat) ^ 16 = 65536 by norm_num, Nat.mod_eq_of_lt (by omega)]
  show jsOr (jsShl (jsAnd hi 65535) 16) (jsAnd lo 65535) = _
  rw [haf, hbf, hshl]
  unfold jsOr
  rw [toUint32_asInt32, hb, Nat.mod_eq_of_lt (by omega)]
  have hor : (hi.toNat * 65536) ||| lo.toNat = hi.toNat * 65536 + lo.toNat := by
    rw [show hi.toNat * 65536 = 2 ^ 16 * hi.toNat by ring]
    exact (Nat.mul_add_lt_is_or (by omega) _).symm
  rw [hor]
  by_cases hcase : hi < 32768
  · rw [if_pos hcase, asInt32_eq_of_lt (by omega)]
    push_cast; omega
  · rw [if_neg hcase, asInt32_eq_of_ge (by omega) (by omega)]
    push_cast; omega

/-- Witness for C3: the spec's own example `u32(0x0001, 0x0000) = 65536`
does hold, via the amended theorem's `hi < 0x8000` branch. -/
theorem C3_witness : u32 (some 1) (some 0) = 65536 := by
  have h := C3_amended 1 0 (by decide) (by decide) (by decide) (by decide)
  rw [h]; decide

/-- **C1**: every decoded alarm's `(register, bit)` key is in the alarm
allow-list and every status key is in the status allow-list, so a register
in neither list contributes nothing to either output, the status registers
1018–1019 never surface as alarms, and no `(register, bit)` pair is ever
attributed to both outputs. -/
theorem C1_allow_list_separation (block : List Int) :
    (∀ a ∈ decodeAlarms block, (a.register, a.bit) ∈ ALARM_MAP.map Prod.fst) ∧
    (∀ p ∈ decodeStatus block, p.1 ∈ STATUS_MAP.map Prod.fst) ∧
    (∀ r : Nat, r ∉ ALARM_REG_SET → r ∉ STATUS_REGISTERS →
      (∀ a ∈ decodeAlarms block, a.register ≠ r) ∧
      (∀ p ∈ decodeStatus block, p.1.1 ≠ r)) ∧
    (∀ a ∈ decodeAlarms block, a.register ≠ 1018 ∧ a.register ≠ 1019) ∧
    (∀ a ∈ decodeAlarms block, ∀ p ∈ decodeStatus block,
      (a.register, a.bit) ≠ p.1) := by
  have halarm : ∀ a ∈ decodeAlarms block, (a.register, a.bit) ∈ ALARM_MAP.map Prod.fst :=
    fun a ha => (mem_decodeAlarms ha).2
  have hstatus : ∀ p ∈ decodeStatus block, p.1 ∈ STATUS_MAP.map Prod.fst :=
    fun p hp => (mem_decodeStatus hp).1
  have hregA : ∀ k ∈ ALARM_MAP.map Prod.fst, k.1 ∈ ALARM_REG_SET := by decide
  have hregS : ∀ k ∈ STATUS_MAP.map Prod.fst, k.1 ∈ STATUS_REGISTERS := by decide
  have hdisj : ∀ k ∈ ALARM_MAP.map Prod.fst, k ∉ STATUS_MAP.map Prod.fst := by decide
  have h1819 : ∀ k ∈ ALARM_MAP.map Prod.fst, k.1 ≠ 1018 ∧ k.1 ≠ 1019 := by decide
  refine ⟨halarm, hstatus, ?_, ?_, ?_⟩
  · intro r hrA hrS
    refine ⟨fun a ha hr => hrA ?_, fun p hp hr => hrS ?_⟩
    · exact hr ▸ hregA _ (halarm a ha)
    · exact hr ▸ hregS _ (hstatus p hp)
  · intro a ha
    exact h1819 _ (halarm a ha)
  · intro a ha p hp heq
    exact hdisj _ (halarm a ha) (by rw [heq]; exact hstatus p hp)

/-- Witness for C1: on an all-ones-bit-0 block, the decoded alarm `(1000,0)`
is an alarm-table key and the decoded status entry `(1018,0)` is a
status-table key. -/
theorem C1_witness :
    ((1000, 0) : Nat × Nat) ∈ ALARM_MAP.map Prod.fst ∧
    ((1018, 0) : Nat × Nat) ∈ STATUS_MAP.map Prod.fst := by
  constructor
  · exact (C1_allow_list_separation (List.replicate 20 1)).1
      ⟨1000, 0, "1000", "G -P> 1"⟩ (by decide)
  · exact (C1_allow_list_separation (List.replicate 20 1)).2.1
      ((1018, 0), true) (by decide)

/-- **C6**: `getOperatingModeText` agrees with the spec's mode synthesizer
(first-true-wins over OFF, Manual, Test, Auto, else Unknown; modifiers AMF,
Load Takeover, AMF Active appended independently in that fixed order) for
every combination of the seven flags. -/
theorem C6_mode_synthesizer (off manual test auto amf loadTakeover amfActive : Bool) :
    getOperatingModeText
        (statusOfModeFlags off manual test auto amf loadTakeover amfActive) =
      modeTextSpec off manual test auto amf loadTakeover amfActive := by
  cases off <;> cases manual <;> cases test <;> cases auto <;> cases amf <;>
    cases loadTakeover <;> cases amfActive <;> rfl

/-- Witness for C6: the claim's two examples — Auto with AMF and
Load Takeover set, and all flags false. -/
theorem C6_witness :
    getOperatingModeText (statusOfModeFlags false false false true true true false) =
      "Auto (AMF, Load Takeover)" ∧
    getOperatingModeText (statusOfModeFlags false false false false false false false) =
      "Unknown" :=
  ⟨(C6_mode_synthesizer false false false true true true false).trans rfl,
   (C6_mode_synthesizer false false false false false false false).trans rfl⟩

/-- **C7**: decoding a block with exactly one alarm-table bit set yields
exactly that one alarm with the table's code and text, for every key of the
table; and the decoded alarm list of any block is ordered ascending by
register, then by bit. -/
theorem C7_alarm_decode_and_order :
    (∀ p ∈ ALARM_MAP, decodeAlarms (singleBitBlock p.1.1 p.1.2) =
      [⟨p.1.1, p.1.2, p.2.code, p.2.text⟩]) ∧
    (∀ block : List Int, (decodeAlarms block).Pairwise alarmLt) :=
  ⟨by decide, decodeAlarms_sorted⟩

/-- Witness for C7: the single-bit block for key `(1000,0)` decodes to
exactly the alarm `1000 / G -P> 1`. -/
theorem C7_witness :
    decodeAlarms (singleBitBlock 1000 0) = [⟨1000, 0, "1000", "G -P> 1"⟩] :=
  C7_alarm_decode_and_order.1 ((1000, 0), ⟨"1000", "G -P> 1"⟩) (by decide)

end Deif
